import Mathlib

/-!
Verification development for the augmentation endpoint of the
laso-deepseek-prototype repository.

The repository contains two versions of a Next.js route handler
(`src/unnamed/part_000` and `src/unnamed/part_001`), each exporting an
async `POST` function together with a `retrieveData` helper.  Both are
embedded below as pure Lean functions.  Outbound effects (the retrieval
`fetch` and the `streamText` generation call) are recorded as an ordered
event trace; thrown JavaScript errors become `Except.error` with the
exact message strings from the source.  The retrieval service is modelled
as an oracle mapping the outgoing fetch request to an HTTP response.
-/

/-- JSON values, as produced by `await response.json()` and consumed by
`JSON.stringify`.  Numbers are modelled as integers (no claim depends on
float formatting). -/
inductive Json where
  | null : Json
  | bool (b : Bool) : Json
  | num (n : Int) : Json
  | str (s : String) : Json
  | arr (xs : List Json) : Json
  | obj (fields : List (String × Json)) : Json

/-- JSON string escaping of a single character, following the
`JSON.stringify` quoting rules. -/
def escapeChar (c : Char) : String :=
  if c = '"' then "\\\""
  else if c = '\\' then "\\\\"
  else if c = '\n' then "\\n"
  else if c = '\t' then "\\t"
  else if c = '\r' then "\\r"
  else String.singleton c

/-- JSON string escaping, character by character. -/
def escapeString (s : String) : String :=
  s.data.foldl (fun acc c => acc ++ escapeChar c) ""

mutual

/-- Embedding of `JSON.stringify`: keys and strings quoted, no
whitespace, arrays bracketed, objects braced. -/
def Json.stringify : Json → String
  | .null => "null"
  | .bool true => "true"
  | .bool false => "false"
  | .num n => toString n
  | .str s => "\"" ++ escapeString s ++ "\""
  | .arr xs => "[" ++ stringifyList xs ++ "]"
  | .obj fs => "\x7b" ++ stringifyFields fs ++ "\x7d"

/-- Comma-separated serialization of the elements of a JSON array. -/
def stringifyList : List Json → String
  | [] => ""
  | [x] => x.stringify
  | x :: y :: xs => x.stringify ++ "," ++ stringifyList (y :: xs)

/-- Comma-separated serialization of the fields of a JSON object. -/
def stringifyFields : List (String × Json) → String
  | [] => ""
  | [(k, v)] => "\"" ++ escapeString k ++ "\":" ++ v.stringify
  | (k, v) :: f :: fs =>
      "\"" ++ escapeString k ++ "\":" ++ v.stringify ++ "," ++ stringifyFields (f :: fs)

end

/-- JavaScript truthiness of a JSON value (`if (... && context)`):
`null`, `false`, `0` and `""` are falsy; every array and object —
including empty ones — is truthy. -/
def jsTruthy : Json → Bool
  | .null => false
  | .bool b => b
  | .num n => n != 0
  | .str s => s != ""
  | .arr _ => true
  | .obj _ => true

/-- An environment variable as seen through `process.env`: absent
(`none`) or a string.  `envTruthy` is the JS truthiness test `!v`
inverted: absent and empty strings are falsy. -/
def envTruthy : Option String → Bool
  | none => false
  | some s => s != ""

/-- The process environment read by the handlers: `MODEL`,
`VECTORIZE_TOKEN`, `VECTORIZE_RETRIEVAL_URL`, `GROQ_API_KEY`. -/
structure Env where
  model : Option String
  vectorizeToken : Option String
  vectorizeRetrievalUrl : Option String
  groqApiKey : Option String
deriving DecidableEq

/-- One `CoreMessage` of the conversation: a role and a text content
(the handler only ever reads `content` through `String(...)`). -/
structure Message where
  role : String
  content : String
deriving DecidableEq

/-- The JSON payload `retrieveData` builds for the retrieval service:
`{ question, numResults: 5, rerank: true, context?: { messages } }`. -/
structure RetrievalPayload where
  question : String
  numResults : Nat
  rerank : Bool
  context : Option (List Message)
deriving DecidableEq

/-- The outgoing `fetch` call: target URL, the two headers set by the
source, and the JSON payload. -/
structure FetchRequest where
  url : String
  contentType : String
  authorization : String
  payload : RetrievalPayload
deriving DecidableEq

/-- The retrieval service's HTTP response: `ok`, `statusText`, and the
parsed JSON body. -/
structure HttpResponse where
  ok : Bool
  statusText : String
  body : Json

/-- Outbound effects of one request, in program order: the retrieval
`fetch` and the `streamText` generation call (model id, system
instruction, forwarded messages). -/
inductive Event where
  | retrievalFetch (req : FetchRequest) : Event
  | generationCall (model : String) (system : String) (messages : List Message) : Event
deriving DecidableEq

/-- Error message thrown when `MODEL` is unset (identical in both
files). -/
def modelNotSetError : String :=
  "MODEL is not set in the environment variables. Please add it to your environment settings (e.g. .env.develoment) file."

/-- Error message thrown when `VECTORIZE_TOKEN` is unset. -/
def tokenNotSetError : String :=
  "VECTORIZE_TOKEN is not set in the environment variables. Please add it to your environment settings (e.g. .env.develoment) file."

/-- Error message thrown when `VECTORIZE_RETRIEVAL_URL` is unset. -/
def urlNotSetError : String :=
  "pipelineRetrievalUrl is not set. Please define the URL in the environment settings (e.g. in the file .env.development) before calling retrieveData."

/-- Error message thrown when `GROQ_API_KEY` is unset. -/
def groqKeyNotSetError : String :=
  "GROQ_API_KEY is not set in the environment variables. Please add it to your environment settings (e.g. .env.develoment) file."

/-- The fixed system instruction passed to `streamText` (identical in
both files). -/
def systemInstruction : String :=
  "You are the best Hypertension Doctor capable of generating the best treatment plan based on the patient overview. You always generate your responses as correctly structured, valid markdown."

/-- Embedding of `retrieveData` from `src/unnamed/part_000` (the copy in
`part_001` is byte-identical): validates the three environment values,
builds the payload (the `context` field only when a prior message
exists), performs the fetch, and either throws on a non-ok response or
returns the parsed body. -/
def retrieveData (env : Env) (oracle : FetchRequest → HttpResponse)
    (question : String) (messages : List Message) :
    List Event × Except String Json :=
  if envTruthy env.vectorizeToken = false then
    ([], .error tokenNotSetError)
  else if envTruthy env.vectorizeRetrievalUrl = false then
    ([], .error urlNotSetError)
  else if envTruthy env.groqApiKey = false then
    ([], .error groqKeyNotSetError)
  else
    let payload : RetrievalPayload :=
      { question := question
        numResults := 5
        rerank := true
        context := if messages.length > 0 then some messages else none }
    let req : FetchRequest :=
      { url := env.vectorizeRetrievalUrl.getD ""
        contentType := "application/json"
        authorization := env.vectorizeToken.getD ""
        payload := payload }
    let resp := oracle req
    if resp.ok = false then
      ([.retrievalFetch req], .error ("Failed to fetch data: " ++ resp.statusText))
    else
      ([.retrievalFetch req], .ok resp.body)

/-- `messages[messages.length - 1].content` (the handler already guards
`messages.length > 0` before each use). -/
def lastContent (messages : List Message) : String :=
  (messages.getLastD ⟨"", ""⟩).content

/-- The in-place mutation `messages[messages.length - 1].content = ...`:
every message but the last is untouched, the last keeps its role and
gets the new content. -/
def rewriteLast (messages : List Message) (newContent : String) : List Message :=
  messages.dropLast ++ [⟨(messages.getLastD ⟨"", ""⟩).role, newContent⟩]

/-- The conversation handed to `streamText`, as a function of the
retrieval result: lines 23-51 of `part_000` (23-55 of `part_001`)
overwrite the last message's content with the filled-in template exactly
when the conversation is non-empty and the retrieval result is truthy. -/
def forwardedMessages (template : String → String → String)
    (messages : List Message) (context : Json) : List Message :=
  if messages.length > 0 && jsTruthy context then
    rewriteLast messages (template (lastContent messages) context.stringify)
  else
    messages

/-- The handler body shared by the two files, parameterised by the
rewrite template (the only difference between them).  Returns the event
trace in program order and either the thrown error or success. -/
def runPOST (template : String → String → String) (env : Env)
    (oracle : FetchRequest → HttpResponse) (messages : List Message) :
    List Event × Except String Unit :=
  if envTruthy env.model = false then
    ([], .error modelNotSetError)
  else
    let retrieved : List Event × Except String Json :=
      if messages.length > 0 then
        retrieveData env oracle (lastContent messages) messages.dropLast
      else
        ([], .ok .null)
    match retrieved with
    | (retEvents, .error e) => (retEvents, .error e)
    | (retEvents, .ok context) =>
      (retEvents ++
        [.generationCall (env.model.getD "") systemInstruction
          (forwardedMessages template messages context)],
       .ok ())

/-- Fixed text of the `part_000` template before the interpolated
question. -/
def template0Pre : String :=
  "\nYou are tasked with generating a treatment plan using provided chunks of information, consider first steps first before using medications. Your goal is to provide an accurate answer while citing your sources using a specific markdown format.\n\nHere is the question you need to answer:\n<question>\n"

/-- Fixed text of the `part_000` template between the question and the
serialized chunks. -/
def template0Mid : String :=
  "\n</question>\n\nBelow are chunks of information that you can use to answer the question. Each chunk is preceded by a \nsource identifier in the format [source=X&link=Y], where X is the source number and Y is the URL of the source:\n\n<chunks>\n"

/-- Fixed text of the `part_000` template after the serialized chunks:
the citation instructions. -/
def template0Post : String :=
  "\n</chunks>\n\nYour task is to answer the question using the information provided in these chunks. \nWhen you use information from a specific chunk in your answer, you must cite it using a markdown link format. \nThe citation should appear at the end of the sentence where the information is used.\n\nIf you cannot answer the question using the provided chunks, say \"Sorry I don\x27t know\".\n\nThe citation format should be as follows:\n[Chunk source](URL)\n\nFor example, if you\x27re using information from the chunk labeled [source=3&link=https://example.com/page], your citation would look like this:\n[3](https://example.com/page) and would open a new tab to the source URL when clicked.\n"

/-- The `part_000` rewrite: the template literal of lines 24-50, a
function of the original content and of `JSON.stringify(context)`. -/
def rewritten0 (question chunks : String) : String :=
  template0Pre ++ question ++ template0Mid ++ chunks ++ template0Post

/-- Fixed text of the `part_001` template before the interpolated
question. -/
def template1Pre : String :=
  "\nGenerate a detailed treatment plan for the following patient. Your answer must follow a structured format and provide clear step-by-step recommendations before introducing medications.\n\nOutput Structure:\n\nPatient Overview: Brief summary of the patient\x27s condition.\nLifestyle Modifications (First-Line Treatment, consider lifestyle modifications before medications)\nDietary Changes: Provide a detailed and structured diet plan using Zambian foods, including specific foods to include and avoid (e.g., DASH Diet specifics).\nPhysical Activity: Recommended detailed exercises with intensity and frequency.\nWeight Management Strategy: Target weight, expected reduction per week, and approach.\nAlcohol and Smoking: Limits and alternatives for patients struggling to quit.\nPharmacological Intervention (If Lifestyle Fails to Achieve Target BP)\nMedication Options: Explain the first-line medications and alternatives based on patient profile (e.g., African ethnicity considerations).\nMonitoring & Follow-Up Plan\nBP Check Intervals: Frequency of follow-ups.\nTests Required: What are the tests required according to guidelines.\nSpecial Considerations: Address ethnic, family history, and potential risks for progression to diabetes.\n\nHere is the patient info where you need to generate treatment plan:\n\n<question>\n"

/-- Fixed text of the `part_001` template between the question and the
serialized chunks (identical to `template0Mid` in the source). -/
def template1Mid : String :=
  "\n</question>\n\nBelow are chunks of information that you can use to answer the question. Each chunk is preceded by a \nsource identifier in the format [source=X&link=Y], where X is the source number and Y is the URL of the source:\n\n<chunks>\n"

/-- Fixed text of the `part_001` template after the serialized chunks
(no citation instructions in this version). -/
def template1Post : String :=
  "\n</chunks>\n"

/-- The `part_001` rewrite: the template literal of lines 24-54. -/
def rewritten1 (question chunks : String) : String :=
  template1Pre ++ question ++ template1Mid ++ chunks ++ template1Post

/-- The `POST` handler of `src/unnamed/part_000`. -/
def POST0 : Env → (FetchRequest → HttpResponse) → List Message →
    List Event × Except String Unit :=
  runPOST rewritten0

/-- The `POST` handler of `src/unnamed/part_001`. -/
def POST1 : Env → (FetchRequest → HttpResponse) → List Message →
    List Event × Except String Unit :=
  runPOST rewritten1

/-- Substring containment, at the level of the underlying character
lists. -/
def strInfix (pat s : String) : Prop :=
  pat.data <:+: s.data

instance (pat s : String) : Decidable (strInfix pat s) := by
  unfold strInfix
  infer_instance

/-- `true` iff the event is a generation call. -/
def Event.isGeneration : Event → Bool
  | .generationCall _ _ _ => true
  | .retrievalFetch _ => false

/-- `true` iff the event is a retrieval fetch. -/
def Event.isRetrieval : Event → Bool
  | .generationCall _ _ _ => false
  | .retrievalFetch _ => true

/-- The fetch request `retrieveData` builds from its own arguments once
the three environment gates pass. -/
def requestFor (env : Env) (q : String) (msgs : List Message) : FetchRequest :=
  { url := env.vectorizeRetrievalUrl.getD ""
    contentType := "application/json"
    authorization := env.vectorizeToken.getD ""
    payload :=
      { question := q
        numResults := 5
        rerank := true
        context := if msgs.length > 0 then some msgs else none } }

/-- Executable prefix test on character lists. -/
def listIsPrefixOf : List Char → List Char → Bool
  | [], _ => true
  | _ :: _, [] => false
  | a :: as, b :: bs => a == b && listIsPrefixOf as bs

/-- Executable substring test on character lists: the pattern is a
prefix of some suffix. -/
def listSub (pat : List Char) : List Char → Bool
  | [] => pat.isEmpty
  | b :: bs => listIsPrefixOf pat (b :: bs) || listSub pat bs

/-- The fetch request `retrieveData` issues when invoked from `POST` on a
non-empty conversation with all environment values present: the question
is the last message's content, the prior messages become the optional
`context`, and the bearer credential goes into the `Authorization`
header. -/
def retrievalRequest (env : Env) (messages : List Message) : FetchRequest :=
  { url := env.vectorizeRetrievalUrl.getD ""
    contentType := "application/json"
    authorization := env.vectorizeToken.getD ""
    payload :=
      { question := lastContent messages
        numResults := 5
        rerank := true
        context := if messages.dropLast.length > 0 then some messages.dropLast else none } }

/-- A sample environment with all four values present. -/
def envFull : Env :=
  { model := some "llama"
    vectorizeToken := some "tok"
    vectorizeRetrievalUrl := some "https://retrieval.example"
    groqApiKey := some "gk" }

/-- A sample one-message conversation. -/
def msgQ : Message := { role := "user", content := "What is Hypertension?" }

/-- A sample retrieved chunk: a JSON object with a content text and a
source URL, carrying no source tag of its own. -/
def chunkA : Json := .obj [("content", .str "hello"), ("sourceUrl", .str "http://a")]

/-! ### Helper lemmas -/

theorem listIsPrefixOf_iff : ∀ (l₁ l₂ : List Char),
    listIsPrefixOf l₁ l₂ = true ↔ l₁ <+: l₂
  | [], l₂ => by simp [listIsPrefixOf]
  | a :: as, [] => by simp [listIsPrefixOf]
  | a :: as, b :: bs => by
      simp only [listIsPrefixOf, Bool.and_eq_true, beq_iff_eq,
        List.cons_prefix_cons]
      exact and_congr_right fun _ => listIsPrefixOf_iff as bs

theorem listSub_iff : ∀ (l₂ l₁ : List Char), listSub l₁ l₂ = true ↔ l₁ <:+: l₂
  | [], l₁ => by simp [listSub, List.isEmpty_iff, List.infix_nil]
  | b :: bs, l₁ => by
      simp only [listSub, Bool.or_eq_true, listIsPrefixOf_iff,
        List.infix_cons_iff, listSub_iff bs l₁]

theorem strInfix_iff_listSub (pat s : String) :
    strInfix pat s ↔ listSub pat.data s.data = true :=
  (listSub_iff s.data pat.data).symm

theorem strInfix_self (s : String) : strInfix s s :=
  List.infix_rfl

theorem strInfix_append_right (t a b : String) (h : strInfix t a) :
    strInfix t (a ++ b) := by
  unfold strInfix at *
  rw [String.data_append]
  obtain ⟨u, v, huv⟩ := h
  exact ⟨u, v ++ b.data, by rw [← huv]; simp⟩

theorem strInfix_append_left (t a b : String) (h : strInfix t b) :
    strInfix t (a ++ b) := by
  unfold strInfix at *
  rw [String.data_append]
  obtain ⟨u, v, huv⟩ := h
  exact ⟨a.data ++ u, v, by rw [← huv]; simp⟩

theorem strInfix_trans {t s r : String} (h1 : strInfix t s) (h2 : strInfix s r) :
    strInfix t r :=
  List.IsInfix.trans h1 h2

theorem strInfix_stringifyList :
    ∀ (xs : List Json) (x : Json), x ∈ xs → strInfix x.stringify (stringifyList xs)
  | [x'], x, h => by
      have hx : x = x' := by simpa using h
      subst hx
      exact strInfix_self _
  | x' :: y :: xs, x, h => by
      rcases List.mem_cons.mp h with h1 | h2
      · subst h1
        show strInfix x.stringify (x.stringify ++ "," ++ stringifyList (y :: xs))
        exact strInfix_append_right _ _ _
          (strInfix_append_right _ _ _ (strInfix_self _))
      · show strInfix x.stringify (x'.stringify ++ "," ++ stringifyList (y :: xs))
        exact strInfix_append_left _ _ _ (strInfix_stringifyList (y :: xs) x h2)

theorem strInfix_mem_arr (x : Json) (xs : List Json) (h : x ∈ xs) :
    strInfix x.stringify (Json.stringify (.arr xs)) := by
  show strInfix x.stringify ("[" ++ stringifyList xs ++ "]")
  exact strInfix_append_right _ _ _
    (strInfix_append_left _ _ _ (strInfix_stringifyList xs x h))

theorem strInfix_question_rewritten0 (q c : String) : strInfix q (rewritten0 q c) := by
  unfold rewritten0
  exact strInfix_append_right _ _ _ (strInfix_append_right _ _ _
    (strInfix_append_right _ _ _ (strInfix_append_left _ _ _ (strInfix_self q))))

theorem strInfix_chunks_rewritten0 (q c : String) : strInfix c (rewritten0 q c) := by
  unfold rewritten0
  exact strInfix_append_right _ _ _ (strInfix_append_left _ _ _ (strInfix_self c))

theorem length_rewriteLast (messages : List Message) (c : String)
    (h : messages ≠ []) : (rewriteLast messages c).length = messages.length := by
  unfold rewriteLast
  have hpos : 0 < messages.length := List.length_pos.mpr h
  rw [List.length_append, List.length_dropLast]
  simp
  omega

theorem getElem?_rewriteLast (messages : List Message) (c : String) (i : Nat)
    (h : i < messages.length - 1) :
    (rewriteLast messages c)[i]? = messages[i]? := by
  unfold rewriteLast
  rw [List.getElem?_append_left (by rw [List.length_dropLast]; exact h)]
  rw [List.getElem?_dropLast]
  simp [h]

theorem getLastD_rewriteLast (messages : List Message) (c : String) (d : Message) :
    (rewriteLast messages c).getLastD d =
      ⟨(messages.getLastD ⟨"", ""⟩).role, c⟩ := by
  unfold rewriteLast
  rw [List.getLastD_concat]

theorem lastContent_rewriteLast (messages : List Message) (c : String) :
    lastContent (rewriteLast messages c) = c := by
  unfold lastContent
  rw [getLastD_rewriteLast]

theorem runPOST_eval (template : String → String → String) (env : Env)
    (oracle : FetchRequest → HttpResponse) (messages : List Message)
    (hm : envTruthy env.model = true) (ht : envTruthy env.vectorizeToken = true)
    (hu : envTruthy env.vectorizeRetrievalUrl = true)
    (hg : envTruthy env.groqApiKey = true) (hne : messages ≠ []) :
    runPOST template env oracle messages =
      if (oracle (retrievalRequest env messages)).ok = false then
        ([.retrievalFetch (retrievalRequest env messages)],
         .error ("Failed to fetch data: " ++
           (oracle (retrievalRequest env messages)).statusText))
      else
        ([.retrievalFetch (retrievalRequest env messages),
          .generationCall (env.model.getD "") systemInstruction
            (forwardedMessages template messages
              (oracle (retrievalRequest env messages)).body)],
         .ok ()) := by
  have hpos : 0 < messages.length := List.length_pos.mpr hne
  have hreq : retrieveData env oracle (lastContent messages) messages.dropLast =
      (if (oracle (retrievalRequest env messages)).ok = false then
        ([.retrievalFetch (retrievalRequest env messages)],
         .error ("Failed to fetch data: " ++
           (oracle (retrievalRequest env messages)).statusText))
      else
        ([.retrievalFetch (retrievalRequest env messages)],
         .ok (oracle (retrievalRequest env messages)).body)) := by
    unfold retrieveData retrievalRequest
    rw [ht, hu, hg]
    exact rfl
  unfold runPOST
  rw [hm]
  simp only [Bool.true_eq_false, if_false, hpos, if_pos, hreq]
  by_cases hok : (oracle (retrievalRequest env messages)).ok = false <;>
    simp [hok]

/-! ### Claim theorems -/

/-- Claim C1, counterexample: with `VECTORIZE_TOKEN` absent but `MODEL`
present, a request with an empty conversation does not throw at all and
the generation call is made, contradicting the claim that every request
fails before any outbound call whenever a required value is absent. -/
theorem C1_counterexample :
    (Env.mk (some "llama") none (some "https://retrieval.example") (some "gk")).vectorizeToken
      = none ∧
    POST0 (Env.mk (some "llama") none (some "https://retrieval.example") (some "gk"))
        (fun _ => ⟨true, "OK", .null⟩) [] =
      ([Event.generationCall "llama" systemInstruction []], .ok ()) :=
  ⟨rfl, rfl⟩

/-- Claim C1, amended: a missing `MODEL` aborts every request with no
outbound call; a missing `VECTORIZE_TOKEN`, `VECTORIZE_RETRIEVAL_URL` or
`GROQ_API_KEY` aborts every request with a non-empty conversation before
any outbound call (the checks run in that order inside `retrieveData`);
an empty conversation skips those three checks entirely. -/
theorem C1_config_gate (env : Env) (oracle : FetchRequest → HttpResponse)
    (messages : List Message) :
    (env.model = none → POST0 env oracle messages = ([], .error modelNotSetError)) ∧
    (envTruthy env.model = true → messages ≠ [] → env.vectorizeToken = none →
      POST0 env oracle messages = ([], .error tokenNotSetError)) ∧
    (envTruthy env.model = true → messages ≠ [] → envTruthy env.vectorizeToken = true →
      env.vectorizeRetrievalUrl = none →
      POST0 env oracle messages = ([], .error urlNotSetError)) ∧
    (envTruthy env.model = true → messages ≠ [] → envTruthy env.vectorizeToken = true →
      envTruthy env.vectorizeRetrievalUrl = true → env.groqApiKey = none →
      POST0 env oracle messages = ([], .error groqKeyNotSetError)) := by
  refine ⟨?_, ?_, ?_, ?_⟩
  · intro h
    unfold POST0 runPOST
    rw [h]
    exact rfl
  · intro hm hne htok
    have hpos : 0 < messages.length := List.length_pos.mpr hne
    unfold POST0 runPOST retrieveData
    rw [hm, htok]
    rw [if_pos hpos]
    exact rfl
  · intro hm hne ht hurl
    have hpos : 0 < messages.length := List.length_pos.mpr hne
    unfold POST0 runPOST retrieveData
    rw [hm, ht, hurl]
    rw [if_pos hpos]
    exact rfl
  · intro hm hne ht hu hkey
    have hpos : 0 < messages.length := List.length_pos.mpr hne
    unfold POST0 runPOST retrieveData
    rw [hm, ht, hu, hkey]
    rw [if_pos hpos]
    exact rfl

/-- Witness for the amended C1, at concrete inputs: `MODEL` absent kills
an empty-conversation request, and `VECTORIZE_TOKEN` absent kills a
one-message request, both with an empty trace. -/
theorem C1_config_gate_witness :
    POST0 (Env.mk none none none none) (fun _ => ⟨true, "OK", .null⟩) [] =
      ([], .error modelNotSetError) ∧
    POST0 (Env.mk (some "llama") none (some "https://retrieval.example") (some "gk"))
        (fun _ => ⟨true, "OK", .null⟩) [msgQ] =
      ([], .error tokenNotSetError) := by
  constructor
  · exact (C1_config_gate _ _ _).1 rfl
  · exact (C1_config_gate _ _ _).2.1 rfl (by decide) rfl

/-- Claim C5, confirmed: when the retrieval service answers with a
non-ok status, the request errors with a message derived from the
upstream `statusText`, the trace holds exactly one retrieval fetch (no
retry), and no generation call happens. -/
theorem C5_retrieval_failure_aborts (env : Env) (st : String) (body : Json)
    (messages : List Message)
    (hm : envTruthy env.model = true) (ht : envTruthy env.vectorizeToken = true)
    (hu : envTruthy env.vectorizeRetrievalUrl = true)
    (hg : envTruthy env.groqApiKey = true) (hne : messages ≠ []) :
    POST0 env (fun _ => ⟨false, st, body⟩) messages =
      ([Event.retrievalFetch (retrievalRequest env messages)],
       .error ("Failed to fetch data: " ++ st)) ∧
    ∀ e ∈ (POST0 env (fun _ => ⟨false, st, body⟩) messages).1,
      Event.isGeneration e = false := by
  have h := runPOST_eval rewritten0 env (fun _ => ⟨false, st, body⟩) messages hm ht hu hg hne
  rw [if_pos rfl] at h
  have h0 : POST0 env (fun _ => ⟨false, st, body⟩) messages =
      ([Event.retrievalFetch (retrievalRequest env messages)],
       .error ("Failed to fetch data: " ++ st)) := h
  refine ⟨h0, ?_⟩
  rw [h0]
  intro e he
  simp only [List.mem_singleton] at he
  subst he
  rfl

/-- Witness for C5: a concrete 500-style failure aborts the one-message
request with the derived error and a single fetch event. -/
theorem C5_retrieval_failure_aborts_witness :
    POST0 envFull (fun _ => ⟨false, "Internal Server Error", .null⟩) [msgQ] =
      ([Event.retrievalFetch (retrievalRequest envFull [msgQ])],
       .error ("Failed to fetch data: " ++ "Internal Server Error")) :=
  (C5_retrieval_failure_aborts envFull "Internal Server Error" .null [msgQ]
    rfl rfl rfl rfl (by decide)).1

/-- Claim C6, confirmed: on an empty conversation (with the model id
present) the handler performs no retrieval fetch and invokes generation
with the empty message list, unmodified. -/
theorem C6_empty_conversation (env : Env) (oracle : FetchRequest → HttpResponse)
    (hm : envTruthy env.model = true) :
    POST0 env oracle [] =
      ([Event.generationCall (env.model.getD "") systemInstruction []], .ok ()) := by
  unfold POST0 runPOST
  rw [hm]
  exact rfl

/-- Witness for C6 at a concrete environment and oracle. -/
theorem C6_empty_conversation_witness :
    POST0 envFull (fun _ => ⟨true, "OK", .null⟩) [] =
      ([Event.generationCall "llama" systemInstruction []], .ok ()) :=
  C6_empty_conversation envFull (fun _ => ⟨true, "OK", .null⟩) rfl

/-- Claim C7, confirmed: every retrieval call carries the last message's
content as `question`, `numResults = 5`, `rerank = true`, a `context`
holding exactly the prior messages present precisely when a prior
message exists, and the bearer credential in the `Authorization`
header. -/
theorem C7_retrieval_payload (env : Env) (oracle : FetchRequest → HttpResponse)
    (messages : List Message)
    (hm : envTruthy env.model = true) (ht : envTruthy env.vectorizeToken = true)
    (hu : envTruthy env.vectorizeRetrievalUrl = true)
    (hg : envTruthy env.groqApiKey = true) (hne : messages ≠ []) :
    (∃ rest, (POST0 env oracle messages).1 =
        Event.retrievalFetch (retrievalRequest env messages) :: rest) ∧
    (retrievalRequest env messages).payload.question = lastContent messages ∧
    (retrievalRequest env messages).payload.numResults = 5 ∧
    (retrievalRequest env messages).payload.rerank = true ∧
    ((retrievalRequest env messages).payload.context =
      if messages.dropLast.length > 0 then some messages.dropLast else none) ∧
    ((retrievalRequest env messages).payload.context.isSome ↔ messages.dropLast ≠ []) ∧
    (retrievalRequest env messages).authorization = env.vectorizeToken.getD "" ∧
    (retrievalRequest env messages).url = env.vectorizeRetrievalUrl.getD "" := by
  refine ⟨?_, rfl, rfl, rfl, rfl, ?_, rfl, rfl⟩
  · have h := runPOST_eval rewritten0 env oracle messages hm ht hu hg hne
    have h0 : POST0 env oracle messages = runPOST rewritten0 env oracle messages := rfl
    by_cases hok : (oracle (retrievalRequest env messages)).ok = false
    · rw [if_pos hok] at h
      exact ⟨[], by rw [h0, h]⟩
    · rw [if_neg hok] at h
      exact ⟨[Event.generationCall (env.model.getD "") systemInstruction
          (forwardedMessages rewritten0 messages
            (oracle (retrievalRequest env messages)).body)],
        by rw [h0, h]⟩
  · show (if messages.dropLast.length > 0 then some messages.dropLast else none).isSome
      ↔ messages.dropLast ≠ []
    by_cases hlen : 0 < messages.dropLast.length
    · rw [if_pos hlen]
      simp [List.length_pos.mp hlen]
    · rw [if_neg hlen]
      have hnil : messages.dropLast = [] :=
        List.eq_nil_of_length_eq_zero (Nat.eq_zero_of_not_pos hlen)
      simp [hnil]

/-- Witness for C7 on a two-message conversation: the fetch request is
the first trace event and carries the expected payload. -/
theorem C7_retrieval_payload_witness :
    ∃ rest, (POST0 envFull (fun _ => ⟨true, "OK", .null⟩)
        [⟨"user", "hi"⟩, msgQ]).1 =
      Event.retrievalFetch (retrievalRequest envFull [⟨"user", "hi"⟩, msgQ]) :: rest :=
  (C7_retrieval_payload envFull (fun _ => ⟨true, "OK", .null⟩)
    [⟨"user", "hi"⟩, msgQ] rfl rfl rfl rfl (by decide)).1

/-- Claim C8, confirmed: on a non-empty conversation the trace starts
with the retrieval fetch; generation events only follow it, appear only
when retrieval succeeded, and the forwarded conversation is the stated
function of the retrieval body. -/
theorem C8_retrieval_before_generation (env : Env) (resp : HttpResponse)
    (messages : List Message)
    (hm : envTruthy env.model = true) (ht : envTruthy env.vectorizeToken = true)
    (hu : envTruthy env.vectorizeRetrievalUrl = true)
    (hg : envTruthy env.groqApiKey = true) (hne : messages ≠ []) :
    ∃ genEvents,
      (POST0 env (fun _ => resp) messages).1 =
        Event.retrievalFetch (retrievalRequest env messages) :: genEvents ∧
      (∀ e ∈ genEvents, Event.isRetrieval e = false) ∧
      (resp.ok = false → genEvents = [] ∧
        (POST0 env (fun _ => resp) messages).2 =
          .error ("Failed to fetch data: " ++ resp.statusText)) ∧
      (resp.ok = true → genEvents =
        [Event.generationCall (env.model.getD "") systemInstruction
          (forwardedMessages rewritten0 messages resp.body)]) := by
  have h := runPOST_eval rewritten0 env (fun _ => resp) messages hm ht hu hg hne
  have h0 : POST0 env (fun _ => resp) messages =
      runPOST rewritten0 env (fun _ => resp) messages := rfl
  by_cases hok : resp.ok = false
  · rw [if_pos hok] at h
    refine ⟨[], ?_, ?_, ?_, ?_⟩
    · rw [h0, h]
    · intro e he
      simp at he
    · intro _
      exact ⟨rfl, by rw [h0, h]⟩
    · intro htrue
      rw [hok] at htrue
      exact absurd htrue (by simp)
  · rw [if_neg hok] at h
    refine ⟨[Event.generationCall (env.model.getD "") systemInstruction
        (forwardedMessages rewritten0 messages resp.body)], ?_, ?_, ?_, ?_⟩
    · rw [h0, h]
    · intro e he
      simp only [List.mem_singleton] at he
      subst he
      rfl
    · intro hfalse
      exact absurd hfalse hok
    · intro _
      rfl

/-- Witness for C8: with a successful retrieval on a one-message
conversation, the fetch strictly precedes the single generation call. -/
theorem C8_retrieval_before_generation_witness :
    ∃ genEvents,
      (POST0 envFull (fun _ => ⟨true, "OK", .arr []⟩) [msgQ]).1 =
        Event.retrievalFetch (retrievalRequest envFull [msgQ]) :: genEvents ∧
      (∀ e ∈ genEvents, Event.isRetrieval e = false) ∧
      ((true : Bool) = false → genEvents = [] ∧
        (POST0 envFull (fun _ => ⟨true, "OK", .arr []⟩) [msgQ]).2 =
          .error ("Failed to fetch data: " ++ "OK")) ∧
      ((true : Bool) = true → genEvents =
        [Event.generationCall "llama" systemInstruction
          (forwardedMessages rewritten0 [msgQ] (.arr []))]) :=
  C8_retrieval_before_generation envFull ⟨true, "OK", .arr []⟩ [msgQ]
    rfl rfl rfl rfl (by decide)

/-- Claim C2, confirmed: when the last message has non-empty content and
retrieval returns a non-empty chunk array, the content forwarded to
generation contains the original question verbatim and the serialization
of every returned chunk. -/
theorem C2_rewrite_contains_question_and_chunks (env : Env) (st : String)
    (xs : List Json) (messages : List Message)
    (hm : envTruthy env.model = true) (ht : envTruthy env.vectorizeToken = true)
    (hu : envTruthy env.vectorizeRetrievalUrl = true)
    (hg : envTruthy env.groqApiKey = true) (hne : messages ≠ [])
    (hq : lastContent messages ≠ "") (hxs : xs ≠ []) :
    POST0 env (fun _ => ⟨true, st, .arr xs⟩) messages =
      ([Event.retrievalFetch (retrievalRequest env messages),
        Event.generationCall (env.model.getD "") systemInstruction
          (rewriteLast messages
            (rewritten0 (lastContent messages) (Json.stringify (.arr xs))))],
       .ok ()) ∧
    strInfix (lastContent messages)
      (lastContent (rewriteLast messages
        (rewritten0 (lastContent messages) (Json.stringify (.arr xs))))) ∧
    ∀ x ∈ xs, strInfix x.stringify
      (lastContent (rewriteLast messages
        (rewritten0 (lastContent messages) (Json.stringify (.arr xs))))) := by
  have hpos : 0 < messages.length := List.length_pos.mpr hne
  have h := runPOST_eval rewritten0 env (fun _ => ⟨true, st, .arr xs⟩) messages
    hm ht hu hg hne
  rw [if_neg (by simp)] at h
  refine ⟨?_, ?_, ?_⟩
  · have h0 : POST0 env (fun _ => ⟨true, st, .arr xs⟩) messages =
        runPOST rewritten0 env (fun _ => ⟨true, st, .arr xs⟩) messages := rfl
    rw [h0, h]
    unfold forwardedMessages
    simp [hpos, jsTruthy]
  · rw [lastContent_rewriteLast]
    exact strInfix_question_rewritten0 _ _
  · intro x hx
    rw [lastContent_rewriteLast]
    exact strInfix_trans (strInfix_mem_arr x xs hx) (strInfix_chunks_rewritten0 _ _)

/-- Witness for C2: on the sample conversation with one returned chunk,
the forwarded content contains both the question and the chunk's
serialization. -/
theorem C2_rewrite_contains_question_and_chunks_witness :
    strInfix "What is Hypertension?"
      (lastContent (rewriteLast [msgQ]
        (rewritten0 (lastContent [msgQ]) (Json.stringify (.arr [chunkA]))))) ∧
    strInfix (Json.stringify chunkA)
      (lastContent (rewriteLast [msgQ]
        (rewritten0 (lastContent [msgQ]) (Json.stringify (.arr [chunkA]))))) := by
  have h := C2_rewrite_contains_question_and_chunks envFull "OK" [chunkA] [msgQ]
    rfl rfl rfl rfl (by decide) (by decide) (by simp)
  exact ⟨h.2.1, h.2.2 chunkA (by simp)⟩

/-- Claim C3, counterexample: retrieval succeeding with an *empty* chunk
array (`[]`, a JS-truthy value) still triggers the rewrite, so the
conversation is *not* forwarded unmodified: the forwarded last content
is the filled-in template, not the original question. -/
theorem C3_counterexample :
    POST0 envFull (fun _ => ⟨true, "OK", .arr []⟩) [msgQ] =
      ([Event.retrievalFetch (retrievalRequest envFull [msgQ]),
        Event.generationCall "llama" systemInstruction
          [⟨"user", rewritten0 "What is Hypertension?" "[]"⟩]],
       .ok ()) ∧
    rewritten0 "What is Hypertension?" "[]" ≠ "What is Hypertension?" := by
  refine ⟨rfl, by decide⟩

/-- Claim C3, amended: only a JS-falsy retrieval result (`null`,
`false`, `0`, `""`) leaves the conversation unmodified; the handler then
forwards the input messages unchanged to generation. -/
theorem C3_falsy_context_forwards_unmodified (env : Env) (st : String)
    (j : Json) (messages : List Message)
    (hm : envTruthy env.model = true) (ht : envTruthy env.vectorizeToken = true)
    (hu : envTruthy env.vectorizeRetrievalUrl = true)
    (hg : envTruthy env.groqApiKey = true) (hj : jsTruthy j = false) :
    ∃ pre, POST0 env (fun _ => ⟨true, st, j⟩) messages =
      (pre ++ [Event.generationCall (env.model.getD "") systemInstruction messages],
       .ok ()) := by
  by_cases hne : messages = []
  · subst hne
    refine ⟨[], ?_⟩
    unfold POST0 runPOST
    rw [hm]
    exact rfl
  · have h := runPOST_eval rewritten0 env (fun _ => ⟨true, st, j⟩) messages
      hm ht hu hg hne
    rw [if_neg (by simp)] at h
    refine ⟨[Event.retrievalFetch (retrievalRequest env messages)], ?_⟩
    have h0 : POST0 env (fun _ => ⟨true, st, j⟩) messages =
        runPOST rewritten0 env (fun _ => ⟨true, st, j⟩) messages := rfl
    rw [h0, h]
    unfold forwardedMessages
    simp [hj]

/-- Witness for the amended C3: a `null` retrieval result forwards the
one-message conversation unchanged. -/
theorem C3_falsy_context_forwards_unmodified_witness :
    ∃ pre, POST0 envFull (fun _ => ⟨true, "OK", .null⟩) [msgQ] =
      (pre ++ [Event.generationCall "llama" systemInstruction [msgQ]], .ok ()) :=
  C3_falsy_context_forwards_unmodified envFull "OK" .null [msgQ]
    rfl rfl rfl rfl rfl

/-- Claim C9, confirmed: when the rewrite occurs, the forwarded
conversation has the same length, every message before the last is
unchanged, the last message keeps its role, and only its content is
replaced by the filled-in template. -/
theorem C9_frame_only_last_content (env : Env) (st : String) (j : Json)
    (messages : List Message)
    (hm : envTruthy env.model = true) (ht : envTruthy env.vectorizeToken = true)
    (hu : envTruthy env.vectorizeRetrievalUrl = true)
    (hg : envTruthy env.groqApiKey = true) (hne : messages ≠ [])
    (hj : jsTruthy j = true) :
    ∃ ms2,
      POST0 env (fun _ => ⟨true, st, j⟩) messages =
        ([Event.retrievalFetch (retrievalRequest env messages),
          Event.generationCall (env.model.getD "") systemInstruction ms2],
         .ok ()) ∧
      ms2.length = messages.length ∧
      (∀ i, i < messages.length - 1 → ms2[i]? = messages[i]?) ∧
      ms2.getLastD ⟨"", ""⟩ =
        ⟨(messages.getLastD ⟨"", ""⟩).role,
         rewritten0 (lastContent messages) j.stringify⟩ := by
  have hpos : 0 < messages.length := List.length_pos.mpr hne
  have h := runPOST_eval rewritten0 env (fun _ => ⟨true, st, j⟩) messages
    hm ht hu hg hne
  rw [if_neg (by simp)] at h
  refine ⟨rewriteLast messages (rewritten0 (lastContent messages) j.stringify),
    ?_, ?_, ?_, ?_⟩
  · have h0 : POST0 env (fun _ => ⟨true, st, j⟩) messages =
        runPOST rewritten0 env (fun _ => ⟨true, st, j⟩) messages := rfl
    rw [h0, h]
    unfold forwardedMessages
    simp [hpos, hj]
  · exact length_rewriteLast messages _ hne
  · intro i hi
    exact getElem?_rewriteLast messages _ i hi
  · exact getLastD_rewriteLast messages _ _

/-- Witness for C9 on a two-message conversation: the first message
survives untouched and the last keeps its role. -/
theorem C9_frame_only_last_content_witness :
    ∃ ms2,
      POST0 envFull (fun _ => ⟨true, "OK", .arr []⟩) [⟨"user", "hi"⟩, msgQ] =
        ([Event.retrievalFetch (retrievalRequest envFull [⟨"user", "hi"⟩, msgQ]),
          Event.generationCall "llama" systemInstruction ms2],
         .ok ()) ∧
      ms2.length = 2 ∧
      (∀ i, i < 1 → ms2[i]? = [(⟨"user", "hi"⟩ : Message), msgQ][i]?) ∧
      ms2.getLastD ⟨"", ""⟩ =
        ⟨"user", rewritten0 (lastContent [⟨"user", "hi"⟩, msgQ])
          (Json.stringify (.arr []))⟩ :=
  C9_frame_only_last_content envFull "OK" (.arr []) [⟨"user", "hi"⟩, msgQ]
    rfl rfl rfl rfl (by decide) rfl

set_option maxRecDepth 100000 in
/-- Claim C4, counterexample: the endpoint embeds the retrieval result
verbatim; it never tags chunks.  For a chunk whose JSON carries a source
URL but no tag, neither the serialized chunk list nor the whole
forwarded content contains the `[source=1&link=...]` tag the claim
requires, even though the rewrite did occur. -/
theorem C4_counterexample :
    POST0 envFull (fun _ => ⟨true, "OK", .arr [chunkA]⟩) [msgQ] =
      ([Event.retrievalFetch (retrievalRequest envFull [msgQ]),
        Event.generationCall "llama" systemInstruction
          [⟨"user", rewritten0 "What is Hypertension?"
            (Json.stringify (.arr [chunkA]))⟩]],
       .ok ()) ∧
    ¬ strInfix "[source=1&link=http://a]" (Json.stringify (.arr [chunkA])) ∧
    ¬ strInfix "[source=1&link=http://a]"
      (rewritten0 "What is Hypertension?" (Json.stringify (.arr [chunkA]))) := by
  refine ⟨rfl, ?_, ?_⟩
  · rw [strInfix_iff_listSub]
    decide
  · rw [strInfix_iff_listSub]
    decide

set_option maxRecDepth 100000 in
/-- Claim C4, amended: the rewritten content of `part_000` is the fixed
template with exactly two interpolated parts — the original question and
the verbatim JSON serialization of the retrieval result — and the fixed
text after the chunks describes the citation format, including the
`[3](https://example.com/page)` example; the endpoint itself adds no
per-chunk tags. -/
theorem C4_template_structure (env : Env) (st : String) (j : Json)
    (messages : List Message)
    (hm : envTruthy env.model = true) (ht : envTruthy env.vectorizeToken = true)
    (hu : envTruthy env.vectorizeRetrievalUrl = true)
    (hg : envTruthy env.groqApiKey = true) (hne : messages ≠ [])
    (hj : jsTruthy j = true) :
    POST0 env (fun _ => ⟨true, st, j⟩) messages =
      ([Event.retrievalFetch (retrievalRequest env messages),
        Event.generationCall (env.model.getD "") systemInstruction
          (rewriteLast messages
            (template0Pre ++ lastContent messages ++ template0Mid ++
              Json.stringify j ++ template0Post))],
       .ok ()) ∧
    strInfix "[Chunk source](URL)" template0Post ∧
    strInfix "[3](https://example.com/page)" template0Post := by
  have hpos : 0 < messages.length := List.length_pos.mpr hne
  have h := runPOST_eval rewritten0 env (fun _ => ⟨true, st, j⟩) messages
    hm ht hu hg hne
  rw [if_neg (by simp)] at h
  refine ⟨?_, ?_, ?_⟩
  · have h0 : POST0 env (fun _ => ⟨true, st, j⟩) messages =
        runPOST rewritten0 env (fun _ => ⟨true, st, j⟩) messages := rfl
    rw [h0, h]
    unfold forwardedMessages rewritten0
    simp [hpos, hj]
  · rw [strInfix_iff_listSub]
    decide
  · rw [strInfix_iff_listSub]
    decide

/-- Witness for the amended C4 at a concrete input. -/
theorem C4_template_structure_witness :
    POST0 envFull (fun _ => ⟨true, "OK", .arr [chunkA]⟩) [msgQ] =
      ([Event.retrievalFetch (retrievalRequest envFull [msgQ]),
        Event.generationCall "llama" systemInstruction
          (rewriteLast [msgQ]
            (template0Pre ++ lastContent [msgQ] ++ template0Mid ++
              Json.stringify (.arr [chunkA]) ++ template0Post))],
       .ok ()) :=
  (C4_template_structure envFull "OK" (.arr [chunkA]) [msgQ]
    rfl rfl rfl rfl (by decide) rfl).1

theorem retrieveData_error_of_gate (env : Env) (oracle : FetchRequest → HttpResponse)
    (q : String) (msgs : List Message)
    (h : envTruthy env.vectorizeToken = false ∨
         envTruthy env.vectorizeRetrievalUrl = false ∨
         envTruthy env.groqApiKey = false) :
    ∃ e, retrieveData env oracle q msgs = ([], .error e) := by
  unfold retrieveData
  by_cases h1 : envTruthy env.vectorizeToken = false
  · rw [if_pos h1]
    exact ⟨_, rfl⟩
  · rw [if_neg h1]
    by_cases h2 : envTruthy env.vectorizeRetrievalUrl = false
    · rw [if_pos h2]
      exact ⟨_, rfl⟩
    · rw [if_neg h2]
      by_cases h3 : envTruthy env.groqApiKey = false
      · rw [if_pos h3]
        exact ⟨_, rfl⟩
      · rcases h with h | h | h
        · exact absurd h h1
        · exact absurd h h2
        · exact absurd h h3

theorem retrieveData_gates_true (env : Env) (oracle : FetchRequest → HttpResponse)
    (q : String) (msgs : List Message)
    (h1 : envTruthy env.vectorizeToken = true)
    (h2 : envTruthy env.vectorizeRetrievalUrl = true)
    (h3 : envTruthy env.groqApiKey = true) :
    retrieveData env oracle q msgs =
      if (oracle (requestFor env q msgs)).ok = false then
        ([.retrievalFetch (requestFor env q msgs)],
         .error ("Failed to fetch data: " ++ (oracle (requestFor env q msgs)).statusText))
      else
        ([.retrievalFetch (requestFor env q msgs)],
         .ok (oracle (requestFor env q msgs)).body) := by
  unfold retrieveData requestFor
  rw [h1, h2, h3]
  exact rfl

theorem retrieveData_const_cases (env : Env) (resp : HttpResponse)
    (q : String) (msgs : List Message) :
    (∃ e, retrieveData env (fun _ => resp) q msgs = ([], .error e)) ∨
    (resp.ok = false ∧ ∃ ev, retrieveData env (fun _ => resp) q msgs =
      ([ev], .error ("Failed to fetch data: " ++ resp.statusText))) ∨
    (resp.ok = true ∧ ∃ ev, retrieveData env (fun _ => resp) q msgs =
      ([ev], .ok resp.body)) := by
  by_cases h1 : envTruthy env.vectorizeToken = false
  · exact .inl (retrieveData_error_of_gate env _ q msgs (.inl h1))
  · by_cases h2 : envTruthy env.vectorizeRetrievalUrl = false
    · exact .inl (retrieveData_error_of_gate env _ q msgs (.inr (.inl h2)))
    · by_cases h3 : envTruthy env.groqApiKey = false
      · exact .inl (retrieveData_error_of_gate env _ q msgs (.inr (.inr h3)))
      · have h1' : envTruthy env.vectorizeToken = true := by
          revert h1; cases envTruthy env.vectorizeToken <;> simp
        have h2' : envTruthy env.vectorizeRetrievalUrl = true := by
          revert h2; cases envTruthy env.vectorizeRetrievalUrl <;> simp
        have h3' : envTruthy env.groqApiKey = true := by
          revert h3; cases envTruthy env.groqApiKey <;> simp
        have e := retrieveData_gates_true env (fun _ => resp) q msgs h1' h2' h3'
        by_cases hok : resp.ok = false
        · refine .inr (.inl ⟨hok, .retrievalFetch (requestFor env q msgs), ?_⟩)
          rw [e]
          simp [hok]
        · refine .inr (.inr ⟨by revert hok; cases resp.ok <;> simp,
            .retrievalFetch (requestFor env q msgs), ?_⟩)
          rw [e]
          simp [hok]

theorem runPOST_eq_of_no_rewrite (t1 t2 : String → String → String) (env : Env)
    (resp : HttpResponse) (messages : List Message)
    (h : messages = [] ∨ resp.ok = false ∨ jsTruthy resp.body = false) :
    runPOST t1 env (fun _ => resp) messages =
      runPOST t2 env (fun _ => resp) messages := by
  unfold runPOST
  by_cases hm : envTruthy env.model = false
  · rw [if_pos hm, if_pos hm]
  · rw [if_neg hm, if_neg hm]
    by_cases hne : messages = []
    · subst hne
      exact rfl
    · have hpos : 0 < messages.length := List.length_pos.mpr hne
      rw [if_pos hpos]
      rcases retrieveData_const_cases env resp (lastContent messages)
          messages.dropLast with ⟨e, he⟩ | ⟨hok, ev, he⟩ | ⟨hok, ev, he⟩
      · rw [he]
      · rw [he]
      · rw [he]
        have hj : jsTruthy resp.body = false := by
          rcases h with h | h | h
          · exact absurd h hne
          · rw [h] at hok
            exact absurd hok (by simp)
          · exact h
        simp [hj, forwardedMessages]

/-- Claim C10, counterexample: at the same environment, oracle and
conversation, the two handlers forward different last-message contents
(the two rewrite templates differ), so they are not equivalent. -/
theorem C10_counterexample :
    (POST0 envFull (fun _ => ⟨true, "OK", .arr [chunkA]⟩) [msgQ]).1 =
      [Event.retrievalFetch (retrievalRequest envFull [msgQ]),
       Event.generationCall "llama" systemInstruction
         [⟨"user", rewritten0 "What is Hypertension?"
           (Json.stringify (.arr [chunkA]))⟩]] ∧
    (POST1 envFull (fun _ => ⟨true, "OK", .arr [chunkA]⟩) [msgQ]).1 =
      [Event.retrievalFetch (retrievalRequest envFull [msgQ]),
       Event.generationCall "llama" systemInstruction
         [⟨"user", rewritten1 "What is Hypertension?"
           (Json.stringify (.arr [chunkA]))⟩]] ∧
    rewritten0 "What is Hypertension?" (Json.stringify (.arr [chunkA])) ≠
      rewritten1 "What is Hypertension?" (Json.stringify (.arr [chunkA])) := by
  refine ⟨rfl, rfl, by decide⟩

/-- Claim C10, amended: the two handlers agree whenever no rewrite
occurs — on an empty conversation, on retrieval failure, on a JS-falsy
retrieval result, and on every configuration-error path; they differ
exactly in the template used when the rewrite fires. -/
theorem C10_handlers_agree_without_rewrite (env : Env) (resp : HttpResponse)
    (messages : List Message) :
    (messages = [] ∨ resp.ok = false ∨ jsTruthy resp.body = false →
      POST0 env (fun _ => resp) messages = POST1 env (fun _ => resp) messages) ∧
    (envTruthy env.model = false ∨ envTruthy env.vectorizeToken = false ∨
        envTruthy env.vectorizeRetrievalUrl = false ∨
        envTruthy env.groqApiKey = false →
      POST0 env (fun _ => resp) messages = POST1 env (fun _ => resp) messages) := by
  constructor
  · exact runPOST_eq_of_no_rewrite rewritten0 rewritten1 env resp messages
  · intro h
    by_cases hne : messages = []
    · exact runPOST_eq_of_no_rewrite rewritten0 rewritten1 env resp messages (.inl hne)
    · show runPOST rewritten0 env (fun _ => resp) messages =
        runPOST rewritten1 env (fun _ => resp) messages
      unfold runPOST
      by_cases hm : envTruthy env.model = false
      · rw [if_pos hm, if_pos hm]
      · rw [if_neg hm, if_neg hm]
        have hpos : 0 < messages.length := List.length_pos.mpr hne
        rw [if_pos hpos]
        rcases h with h | h | h | h
        · exact absurd h hm
        · obtain ⟨e, he⟩ := retrieveData_error_of_gate env (fun _ => resp)
            (lastContent messages) messages.dropLast (.inl h)
          rw [he]
        · obtain ⟨e, he⟩ := retrieveData_error_of_gate env (fun _ => resp)
            (lastContent messages) messages.dropLast (.inr (.inl h))
          rw [he]
        · obtain ⟨e, he⟩ := retrieveData_error_of_gate env (fun _ => resp)
            (lastContent messages) messages.dropLast (.inr (.inr h))
          rw [he]

/-- Witness for the amended C10: on a `null` retrieval result the two
handlers produce identical traces and results. -/
theorem C10_handlers_agree_without_rewrite_witness :
    POST0 envFull (fun _ => ⟨true, "OK", .null⟩) [msgQ] =
      POST1 envFull (fun _ => ⟨true, "OK", .null⟩) [msgQ] :=
  (C10_handlers_agree_without_rewrite envFull ⟨true, "OK", .null⟩ [msgQ]).1
    (.inr (.inr rfl))
